import Mathlib

/-!
A shallow embedding of the planet RPC boundary of a React Router + Hono + oRPC
starter application.  The definitions are translated from the KV-backed router
(`listPlanet`, `findPlanet`, `createPlanet` and their zod schemas), from the
Hono dispatch chain in `app/backend/server.ts`, and from the oRPC invocation
pipeline; the theorems establish the behavioural properties of the procedures
`planet.list`, `planet.find` and `planet.create` and of the request dispatcher.
-/

/-- JSON values, the wire representation of procedure inputs.  Numbers are
modelled as integers: every numeric field of the router's schemas is
constrained with `z.number().int()`, so integral values are the only ones a
handler can ever observe. -/
inductive JSON where
  | null : JSON
  | bool : Bool → JSON
  | num : Int → JSON
  | str : String → JSON
  | arr : List JSON → JSON
  | obj : List (String × JSON) → JSON

/-- First-match field lookup in a JSON object, as JavaScript property access. -/
def jsonLookup : List (String × JSON) → String → Option JSON
  | [], _ => none
  | (k, v) :: rest, key => if k = key then some v else jsonLookup rest key

/-- An entity of `PlanetSchema`:
`{ id: z.number().int().min(1), name: z.string(), description: z.string().optional() }`.
An absent `description` property is `none`. -/
structure Planet where
  id : Int
  name : String
  description : Option String
deriving Repr, DecidableEq

/-- The typed oRPC error codes of this boundary (spec taxonomy). -/
inductive ErrCode where
  | NOT_FOUND
  | VALIDATION_ERROR
  | UNAUTHORIZED
  | INTERNAL
deriving Repr, DecidableEq

/-- Contents of the KV binding under the single key `"planets"`; `none` models
an absent key, i.e. `KV.get("planets")` returning `null`. -/
abbrev Store := Option (List Planet)

/-- Request headers, an association list of header names to values. -/
abbrev HeaderMap := List (String × String)

/-- Validated input of `planet.find`: `PlanetSchema.pick({ id: true })`. -/
structure FindInput where
  id : Int
deriving Repr, DecidableEq

/-- Validated input of `planet.create`: `PlanetSchema.omit({ id: true })`. -/
structure CreateInput where
  name : String
  description : Option String
deriving Repr, DecidableEq

/-- Validated input of `planet.list`:
`{ limit: z.number().int().min(1).max(100).optional(), cursor: z.number().int().min(0).default(0) }`. -/
structure ListInput where
  limit : Option Int
  cursor : Int
deriving Repr, DecidableEq

/-- Validation of `planet.find`'s input schema.  A zod object accepts only a
JSON object, requires `id` to be an integer at least 1, and strips unknown
keys. -/
def parseFindInput : JSON → Option FindInput
  | JSON.obj fields =>
    match jsonLookup fields "id" with
    | some (JSON.num n) => if 1 ≤ n then some ⟨n⟩ else none
    | _ => none
  | _ => none

/-- Validation of `planet.create`'s input schema: `name` is a required string,
`description` an optional string. -/
def parseCreateInput : JSON → Option CreateInput
  | JSON.obj fields =>
    match jsonLookup fields "name" with
    | some (JSON.str s) =>
      match jsonLookup fields "description" with
      | none => some ⟨s, none⟩
      | some (JSON.str d) => some ⟨s, some d⟩
      | some _ => none
    | _ => none
  | _ => none

/-- Validation of `planet.list`'s input schema: `limit` optional in 1..100,
`cursor` defaulting to 0 and non-negative when supplied. -/
def parseListInput : JSON → Option ListInput
  | JSON.obj fields =>
    match jsonLookup fields "limit" with
    | some (JSON.num n) =>
      if 1 ≤ n ∧ n ≤ 100 then
        match jsonLookup fields "cursor" with
        | some (JSON.num c) => if 0 ≤ c then some ⟨some n, c⟩ else none
        | none => some ⟨some n, 0⟩
        | some _ => none
      else none
    | none =>
      match jsonLookup fields "cursor" with
      | some (JSON.num c) => if 0 ≤ c then some ⟨none, c⟩ else none
      | none => some ⟨none, 0⟩
      | some _ => none
    | some _ => none
  | _ => none

/-- Handler of `listPlanet`:
`return (await context.KV.get("planets", { type: "json" })) || [];` — the full
stored record, the input (`limit`, `cursor`) unused. -/
def listPlanetHandler (kv : Store) (_input : ListInput) : List Planet :=
  kv.getD []

/-- Handler of `findPlanet`: first entity whose `id` equals the input's `id`,
else `throw new ORPCError("NOT_FOUND", ...)`. -/
def findPlanetHandler (kv : Store) (input : FindInput) : Except ErrCode Planet :=
  match (kv.getD []).find? (fun p => p.id == input.id) with
  | some p => Except.ok p
  | none => Except.error ErrCode.NOT_FOUND

/-- Handler of `createPlanet`: reads the record, builds
`{ id: planets.length + 1, name: input.name }` (the input's `description` does
not appear), writes back the record with the new entity appended, and returns
the new entity. -/
def createPlanetHandler (kv : Store) (input : CreateInput) : Planet × Store :=
  let planets := kv.getD []
  let newPlanet : Planet := ⟨(planets.length : Int) + 1, input.name, none⟩
  (newPlanet, some (planets ++ [newPlanet]))

/-- The `.use` middleware of `createPlanet`.  Its entire body is
`return next();` — the JWT check is commented out — so it passes every context
through unconditionally. -/
def createPlanetMiddleware (_headers : HeaderMap) : Except ErrCode Unit :=
  Except.ok ()

instance {ε α : Type} [DecidableEq ε] [DecidableEq α] : DecidableEq (Except ε α) :=
  fun a b =>
    match a, b with
    | Except.ok x, Except.ok y =>
      if h : x = y then isTrue (by rw [h]) else isFalse (by simp [h])
    | Except.error e, Except.error f =>
      if h : e = f then isTrue (by rw [h]) else isFalse (by simp [h])
    | Except.ok _, Except.error _ => isFalse (by simp)
    | Except.error _, Except.ok _ => isFalse (by simp)

/-- Outcome of invoking one procedure through the oRPC pipeline: the result or
typed error, the storage contents afterwards, and whether the handler ran
(used to state that validation failures never reach the handler). -/
structure CallOutcome (α : Type) where
  result : Except ErrCode α
  kvAfter : Store
  handlerRan : Bool
deriving Repr

/-- Invocation of `planet.list` through the oRPC pipeline: validate the input
against the schema, then run the handler; a validation failure yields
`VALIDATION_ERROR` without invoking the handler. -/
def callListPlanet (kv : Store) (raw : JSON) : CallOutcome (List Planet) :=
  match parseListInput raw with
  | none => ⟨Except.error ErrCode.VALIDATION_ERROR, kv, false⟩
  | some input => ⟨Except.ok (listPlanetHandler kv input), kv, true⟩

/-- Invocation of `planet.find` through the oRPC pipeline. -/
def callFindPlanet (kv : Store) (raw : JSON) : CallOutcome Planet :=
  match parseFindInput raw with
  | none => ⟨Except.error ErrCode.VALIDATION_ERROR, kv, false⟩
  | some input => ⟨findPlanetHandler kv input, kv, true⟩

/-- Invocation of `planet.create` through the oRPC pipeline: the middleware
chain runs in declaration order (the `.use` above `.input`), validation
rejects bad input with `VALIDATION_ERROR` before the handler, and only then
does the handler execute. -/
def callCreatePlanet (headers : HeaderMap) (kv : Store) (raw : JSON) :
    CallOutcome Planet :=
  match createPlanetMiddleware headers with
  | Except.error e => ⟨Except.error e, kv, false⟩
  | Except.ok () =>
    match parseCreateInput raw with
    | none => ⟨Except.error ErrCode.VALIDATION_ERROR, kv, false⟩
    | some input =>
      let (p, kv') := createPlanetHandler kv input
      ⟨Except.ok p, kv', true⟩

/-- One call against the registry: a procedure name together with its raw
input (and, for `create`, the request headers its middleware receives). -/
inductive Op where
  | list (raw : JSON)
  | find (raw : JSON)
  | create (headers : HeaderMap) (raw : JSON)

/-- Storage contents after one procedure call. -/
def stepOp (kv : Store) (op : Op) : Store :=
  match op with
  | Op.list raw => (callListPlanet kv raw).kvAfter
  | Op.find raw => (callFindPlanet kv raw).kvAfter
  | Op.create headers raw => (callCreatePlanet headers kv raw).kvAfter

/-- Storage contents after a sequence of procedure calls. -/
def runOps (kv : Store) (ops : List Op) : Store :=
  ops.foldl stepOp kv

/-- The ids of the stored record are pairwise distinct (the spec's uniqueness
invariant). -/
def idsDistinct (ps : List Planet) : Prop :=
  (ps.map Planet.id).Nodup

/-- Every id of the stored record is at most the record's length. -/
def idsBounded (ps : List Planet) : Prop :=
  ∀ p ∈ ps, p.id ≤ (ps.length : Int)

instance (ps : List Planet) : Decidable (idsDistinct ps) := by
  unfold idsDistinct
  infer_instance

instance (ps : List Planet) : Decidable (idsBounded ps) := by
  unfold idsBounded
  infer_instance

/-- Does the raw input of a call satisfy its procedure's input schema? -/
def callSchemaValid : Op → Bool
  | Op.list raw => (parseListInput raw).isSome
  | Op.find raw => (parseFindInput raw).isSome
  | Op.create _ raw => (parseCreateInput raw).isSome

/-- A procedure result on the wire: a list of entities or a single entity. -/
inductive RpcValue where
  | planets (ps : List Planet)
  | planet (p : Planet)
deriving Repr, DecidableEq

/-- Execute one call of a batch against the registry. -/
def execCall (kv : Store) (c : Op) : Except ErrCode RpcValue × Store :=
  match c with
  | Op.list raw =>
    let o := callListPlanet kv raw
    (o.result.map RpcValue.planets, o.kvAfter)
  | Op.find raw =>
    let o := callFindPlanet kv raw
    (o.result.map RpcValue.planet, o.kvAfter)
  | Op.create headers raw =>
    let o := callCreatePlanet headers kv raw
    (o.result.map RpcValue.planet, o.kvAfter)

/-- Modelled from the spec: the batching transport (`BatchHandlerPlugin` on
the server, `BatchLinkPlugin` on the client — library plugins, their code not
among the repository sources) coalesces several procedure calls into a single
round trip; the server executes the batched calls and returns one response per
call, in request order, each call handled independently through the normal
pipeline. -/
def batchRun (kv : Store) (calls : List Op) :
    List (Except ErrCode RpcValue) × Store :=
  match calls with
  | [] => ([], kv)
  | c :: rest =>
    let (r, kv') := execCall kv c
    let (rs, kv'') := batchRun kv' rest
    (r :: rs, kv'')

/-- Character-list test: is the first list an initial segment of the second? -/
def charsPre : List Char → List Char → Bool
  | [], _ => true
  | _ :: _, [] => false
  | c :: cs, d :: ds => c == d && charsPre cs ds

/-- The characters of the RPC mount point `/rpc`. -/
def rpcBase : List Char := ['/', 'r', 'p', 'c']

/-- The characters of the OpenAPI mount point `/api`. -/
def apiBase : List Char := ['/', 'a', 'p', 'i']

/-- Does a request path fall under the Hono route pattern `base + "/*"`: the
base path itself, or any path below it. -/
def underBase (base : List Char) (p : String) : Bool :=
  p.data == base || charsPre (base ++ ['/']) p.data

/-- Paths handled by the `app.use("/rpc/*", ...)` middleware. -/
def isRpcPath (p : String) : Bool := underBase rpcBase p

/-- Paths handled by the `app.use("/api/*", ...)` middleware. -/
def isApiPath (p : String) : Bool := underBase apiBase p

/-- Which stage of the Hono chain produced the response. -/
inductive Stage where
  | rpc
  | api
  | render
deriving Repr, DecidableEq

/-- The chain from the `/api/*` middleware on: the OpenAPI handler when the
path matches and the handler reports `matched`, else the catch-all
`app.all("*")` render handler. -/
def dispatchFromApi {Resp : Type} (apiH : String → Option Resp)
    (renderH : String → Resp) (path : String) : Stage × Resp :=
  if isApiPath path then
    match apiH path with
    | some r => (Stage.api, r)
    | none => (Stage.render, renderH path)
  else (Stage.render, renderH path)

/-- The Hono middleware chain of `app/backend/server.ts`: `/rpc/*` hands the
request to the RPC handler and calls `next()` only when the handler reports
`matched = false`; `/api/*` does the same with the OpenAPI handler; the
catch-all renders.  A transport's verdict is `Option Resp`: `some` when it
reports `matched` with that response, `none` when the request is not its
own. -/
def dispatch {Resp : Type} (rpcH apiH : String → Option Resp)
    (renderH : String → Resp) (path : String) : Stage × Resp :=
  if isRpcPath path then
    match rpcH path with
    | some r => (Stage.rpc, r)
    | none => dispatchFromApi apiH renderH path
  else dispatchFromApi apiH renderH path

/-- Is a result the typed `UNAUTHORIZED` failure? -/
def isUnauthorized {α : Type} : Except ErrCode α → Bool
  | Except.error ErrCode.UNAUTHORIZED => true
  | _ => false

/-- Evaluation of a `planet.list` call on a schema-valid input. -/
lemma callList_eval (kv : Store) (raw : JSON) (i : ListInput)
    (hi : parseListInput raw = some i) :
    callListPlanet kv raw = ⟨Except.ok (kv.getD []), kv, true⟩ := by
  simp [callListPlanet, hi, listPlanetHandler]

/-- Validation of a well-formed `find` input `{id: x}` with `x ≥ 1`. -/
lemma parseFind_id (x : Int) (hx : 1 ≤ x) :
    parseFindInput (JSON.obj [("id", JSON.num x)]) = some ⟨x⟩ := by
  simp [parseFindInput, jsonLookup, hx]

/-- Evaluation of a `planet.find` call on a well-formed id input. -/
lemma callFind_eval (kv : Store) (x : Int) (hx : 1 ≤ x) :
    callFindPlanet kv (JSON.obj [("id", JSON.num x)]) =
      ⟨findPlanetHandler kv ⟨x⟩, kv, true⟩ := by
  simp [callFindPlanet, parseFind_id x hx]

/-- Evaluation of a `planet.create` call on a schema-valid input. -/
lemma callCreate_eval (headers : HeaderMap) (kv : Store) (raw : JSON)
    (e : CreateInput) (he : parseCreateInput raw = some e) :
    callCreatePlanet headers kv raw =
      ⟨Except.ok ⟨((kv.getD []).length : Int) + 1, e.name, none⟩,
        some ((kv.getD []) ++ [⟨((kv.getD []).length : Int) + 1, e.name, none⟩]),
        true⟩ := by
  simp [callCreatePlanet, createPlanetMiddleware, he, createPlanetHandler]

/-- `planet.list` never writes to storage. -/
lemma callList_kvAfter (kv : Store) (raw : JSON) :
    (callListPlanet kv raw).kvAfter = kv := by
  unfold callListPlanet
  cases parseListInput raw <;> rfl

/-- `planet.find` never writes to storage. -/
lemma callFind_kvAfter (kv : Store) (raw : JSON) :
    (callFindPlanet kv raw).kvAfter = kv := by
  unfold callFindPlanet
  cases parseFindInput raw <;> rfl

/-- After a `planet.create` call the storage is unchanged (validation
failure) or the old record with the one new entity appended. -/
lemma callCreate_kvAfter (headers : HeaderMap) (kv : Store) (raw : JSON) :
    (callCreatePlanet headers kv raw).kvAfter = kv ∨
    ∃ e, parseCreateInput raw = some e ∧
      (callCreatePlanet headers kv raw).kvAfter =
        some ((kv.getD []) ++ [⟨((kv.getD []).length : Int) + 1, e.name, none⟩]) := by
  cases h : parseCreateInput raw with
  | none => left; simp [callCreatePlanet, createPlanetMiddleware, h]
  | some e => right; exact ⟨e, rfl, by rw [callCreate_eval headers kv raw e h]⟩

/-- `find?` skips a leading segment on which the predicate is false. -/
lemma find?_skip {α : Type} (p : α → Bool) (l1 l2 : List α)
    (h : ∀ x ∈ l1, p x = false) : (l1 ++ l2).find? p = l2.find? p := by
  have h1 : l1.find? p = none := by
    rw [List.find?_eq_none]
    intro x hx
    simp [h x hx]
  rw [List.find?_append, h1]
  rfl

/-- Claim C1: for every stored record and every id `x` (a positive integer, as
the entity contract requires), `planet.find` invoked with `{id: x}` returns
the unique entity whose id equals `x` when such an entity exists, and
otherwise fails with the typed error `NOT_FOUND` — never a success carrying no
entity. -/
theorem C1_find_unique_or_not_found (kv : Store) (x : Int) (hx : 1 ≤ x) :
    ((∀ q ∈ kv.getD [], q.id ≠ x) →
      (callFindPlanet kv (JSON.obj [("id", JSON.num x)])).result =
        Except.error ErrCode.NOT_FOUND) ∧
    (∀ p ∈ kv.getD [], p.id = x →
      (∀ q ∈ kv.getD [], q.id = x → q = p) →
      (callFindPlanet kv (JSON.obj [("id", JSON.num x)])).result =
        Except.ok p) := by
  rw [callFind_eval kv x hx]
  constructor
  · intro habs
    have hnone : (kv.getD []).find? (fun p => p.id == x) = none := by
      rw [List.find?_eq_none]
      intro q hq
      simpa using habs q hq
    simp [findPlanetHandler, hnone]
  · intro p hp hpx huniq
    have hsome : ((kv.getD []).find? (fun p => p.id == x)).isSome := by
      rw [List.find?_isSome]
      exact ⟨p, hp, by simp [hpx]⟩
    obtain ⟨q, hq⟩ := Option.isSome_iff_exists.mp hsome
    have hqmem := List.mem_of_find?_eq_some hq
    have hqid : q.id = x := by simpa using List.find?_some hq
    have hqp : q = p := huniq q hqmem hqid
    simp [findPlanetHandler, hq, hqp]

/-- Witness for C1 at concrete inputs: storage `[{id:1, name:"A"}]`, a hit on
id 1 and a miss on id 99. -/
theorem C1_find_unique_or_not_found_witness :
    (callFindPlanet (some [⟨1, "A", none⟩])
        (JSON.obj [("id", JSON.num 1)])).result = Except.ok ⟨1, "A", none⟩ ∧
    (callFindPlanet (some [⟨1, "A", none⟩])
        (JSON.obj [("id", JSON.num 99)])).result =
      Except.error ErrCode.NOT_FOUND := by
  constructor
  · exact (C1_find_unique_or_not_found (some [⟨1, "A", none⟩]) 1 (by decide)).2
      ⟨1, "A", none⟩ (by decide) (by decide) (by decide)
  · exact (C1_find_unique_or_not_found (some [⟨1, "A", none⟩]) 99 (by decide)).1
      (by decide)

/-- Claim C2: a `planet.create` call on a stored record of length `n` with a
schema-valid input assigns the new entity the id `n + 1`, appends it as the
last element, persists the whole record, and returns the new entity. -/
theorem C2_create_appends (headers : HeaderMap) (kv : Store) (raw : JSON)
    (e : CreateInput) (he : parseCreateInput raw = some e) :
    (callCreatePlanet headers kv raw).result =
        Except.ok ⟨((kv.getD []).length : Int) + 1, e.name, none⟩ ∧
    (callCreatePlanet headers kv raw).kvAfter =
        some ((kv.getD []) ++
          [⟨((kv.getD []).length : Int) + 1, e.name, none⟩]) := by
  rw [callCreate_eval headers kv raw e he]
  exact ⟨rfl, rfl⟩

/-- Witness for C2, the scenario of the claim: storage `[{id:1, name:"A"}]`,
`create({name:"B"})` returns `{id:2, name:"B"}` and storage afterwards holds
`[{id:1, name:"A"}, {id:2, name:"B"}]`. -/
theorem C2_create_appends_witness :
    (callCreatePlanet [] (some [⟨1, "A", none⟩])
        (JSON.obj [("name", JSON.str "B")])).result =
      Except.ok ⟨2, "B", none⟩ ∧
    (callCreatePlanet [] (some [⟨1, "A", none⟩])
        (JSON.obj [("name", JSON.str "B")])).kvAfter =
      some [⟨1, "A", none⟩, ⟨2, "B", none⟩] := by
  have h := C2_create_appends [] (some [⟨1, "A", none⟩])
    (JSON.obj [("name", JSON.str "B")]) ⟨"B", none⟩ (by decide)
  exact ⟨h.1, h.2⟩

/-- Claim C6: `planet.list` is a pure function of the stored record — every
schema-valid input returns exactly the stored sequence, the storage is not
modified, an immediately repeated call returns the same outcome, and on empty
storage (absent key) `list({})` returns the empty sequence. -/
theorem C6_list_pure (kv : Store) (raw : JSON) (i : ListInput)
    (hi : parseListInput raw = some i) :
    (callListPlanet kv raw).result = Except.ok (kv.getD []) ∧
    (callListPlanet kv raw).kvAfter = kv ∧
    callListPlanet ((callListPlanet kv raw).kvAfter) raw =
      callListPlanet kv raw ∧
    (callListPlanet none (JSON.obj [])).result = Except.ok [] := by
  rw [callList_eval kv raw i hi]
  refine ⟨rfl, rfl, ?_, by decide⟩
  rw [callList_eval kv raw i hi]

/-- Witness for C6 at storage `[{id:1, name:"A"}]` and input `{}`. -/
theorem C6_list_pure_witness :
    (callListPlanet (some [⟨1, "A", none⟩]) (JSON.obj [])).result =
      Except.ok [⟨1, "A", none⟩] ∧
    (callListPlanet (some [⟨1, "A", none⟩]) (JSON.obj [])).kvAfter =
      some [⟨1, "A", none⟩] ∧
    callListPlanet ((callListPlanet (some [⟨1, "A", none⟩])
        (JSON.obj [])).kvAfter) (JSON.obj []) =
      callListPlanet (some [⟨1, "A", none⟩]) (JSON.obj []) ∧
    (callListPlanet none (JSON.obj [])).result = Except.ok [] :=
  C6_list_pure (some [⟨1, "A", none⟩]) (JSON.obj []) ⟨none, 0⟩ (by decide)

/-- Claim C9: the authorization middleware on `planet.create` is a no-op stub:
it passes every context through, and no invocation of the procedure ever
fails with `UNAUTHORIZED`. -/
theorem C9_middleware_noop (headers : HeaderMap) (kv : Store) (raw : JSON) :
    createPlanetMiddleware headers = Except.ok () ∧
    isUnauthorized (callCreatePlanet headers kv raw).result = false := by
  refine ⟨rfl, ?_⟩
  cases h : parseCreateInput raw with
  | none => simp [callCreatePlanet, createPlanetMiddleware, h, isUnauthorized]
  | some e => rw [callCreate_eval headers kv raw e h]; rfl

/-- Claim C10 (implicit): `create` discards a supplied `description` — the
persisted and returned entity carries only the assigned id and the input's
name — and `list` ignores `limit` and `cursor`: every schema-valid input
yields the full stored sequence. -/
theorem C10_description_dropped_and_pagination_ignored
    (headers : HeaderMap) (kv : Store) (raw : JSON) (e : CreateInput)
    (he : parseCreateInput raw = some e)
    (raw1 raw2 : JSON) (i1 i2 : ListInput)
    (h1 : parseListInput raw1 = some i1) (h2 : parseListInput raw2 = some i2) :
    (callCreatePlanet headers kv raw).result =
        Except.ok ⟨((kv.getD []).length : Int) + 1, e.name, none⟩ ∧
    (callCreatePlanet headers kv raw).kvAfter =
        some ((kv.getD []) ++
          [⟨((kv.getD []).length : Int) + 1, e.name, none⟩]) ∧
    (callListPlanet kv raw1).result = (callListPlanet kv raw2).result ∧
    (callListPlanet kv raw1).result = Except.ok (kv.getD []) := by
  rw [callCreate_eval headers kv raw e he, callList_eval kv raw1 i1 h1,
    callList_eval kv raw2 i2 h2]
  exact ⟨rfl, rfl, rfl, rfl⟩

/-- Witness for C10: a create input with `description` supplied, and two list
inputs with different pagination parameters. -/
theorem C10_description_dropped_and_pagination_ignored_witness :
    (callCreatePlanet [] (some [⟨1, "A", none⟩])
        (JSON.obj [("name", JSON.str "B"), ("description", JSON.str "blue")])).result =
      Except.ok ⟨2, "B", none⟩ ∧
    (callCreatePlanet [] (some [⟨1, "A", none⟩])
        (JSON.obj [("name", JSON.str "B"), ("description", JSON.str "blue")])).kvAfter =
      some [⟨1, "A", none⟩, ⟨2, "B", none⟩] ∧
    (callListPlanet (some [⟨1, "A", none⟩]) (JSON.obj [])).result =
      (callListPlanet (some [⟨1, "A", none⟩])
        (JSON.obj [("limit", JSON.num 1), ("cursor", JSON.num 5)])).result ∧
    (callListPlanet (some [⟨1, "A", none⟩]) (JSON.obj [])).result =
      Except.ok [⟨1, "A", none⟩] := by
  have h := C10_description_dropped_and_pagination_ignored []
    (some [⟨1, "A", none⟩])
    (JSON.obj [("name", JSON.str "B"), ("description", JSON.str "blue")])
    ⟨"B", some "blue"⟩ (by decide)
    (JSON.obj []) (JSON.obj [("limit", JSON.num 1), ("cursor", JSON.num 5)])
    ⟨none, 0⟩ ⟨some 1, 5⟩ (by decide) (by decide)
  exact ⟨h.1, h.2.1, h.2.2.1, h.2.2.2⟩

/-- Appending the entity `{id: length + 1, name}` preserves distinctness and
boundedness of the record's ids, provided the ids were bounded by the length. -/
lemma wf_append (ps : List Planet) (nm : String)
    (hd : idsDistinct ps) (hb : idsBounded ps) :
    idsDistinct (ps ++ [⟨(ps.length : Int) + 1, nm, none⟩]) ∧
    idsBounded (ps ++ [⟨(ps.length : Int) + 1, nm, none⟩]) := by
  constructor
  · unfold idsDistinct at hd ⊢
    rw [List.map_append, List.nodup_append]
    refine ⟨hd, by simp, ?_⟩
    intro a ha hmem
    obtain ⟨p, hp, rfl⟩ := List.mem_map.mp ha
    have hple := hb p hp
    simp only [List.map_cons, List.map_nil, List.mem_singleton] at hmem
    omega
  · intro p hp
    rw [List.mem_append] at hp
    rcases hp with h | h
    · have := hb p h
      simp only [List.length_append, List.length_cons, List.length_nil]
      push_cast
      omega
    · simp only [List.mem_singleton] at h
      subst h
      simp only [List.length_append, List.length_cons, List.length_nil]
      push_cast
      omega

/-- One procedure call preserves distinctness-plus-boundedness of the ids. -/
lemma stepOp_wf (kv : Store) (op : Op)
    (hd : idsDistinct (kv.getD [])) (hb : idsBounded (kv.getD [])) :
    idsDistinct ((stepOp kv op).getD []) ∧
    idsBounded ((stepOp kv op).getD []) := by
  cases op with
  | list raw =>
    rw [show stepOp kv (Op.list raw) = (callListPlanet kv raw).kvAfter from rfl,
      callList_kvAfter]
    exact ⟨hd, hb⟩
  | find raw =>
    rw [show stepOp kv (Op.find raw) = (callFindPlanet kv raw).kvAfter from rfl,
      callFind_kvAfter]
    exact ⟨hd, hb⟩
  | create headers raw =>
    rcases callCreate_kvAfter headers kv raw with h | ⟨e, _, h⟩
    · rw [show stepOp kv (Op.create headers raw) =
          (callCreatePlanet headers kv raw).kvAfter from rfl, h]
      exact ⟨hd, hb⟩
    · rw [show stepOp kv (Op.create headers raw) =
          (callCreatePlanet headers kv raw).kvAfter from rfl, h]
      exact wf_append (kv.getD []) e.name hd hb

/-- Claim C4 fails as stated: from the record `[{id:2, name:"A"}]`, whose ids
are pairwise distinct, a single `create` assigns id `length + 1 = 2` and the
record's ids are no longer pairwise distinct. -/
theorem C4_counterexample :
    ¬ (∀ kv0 : List Planet, idsDistinct kv0 →
        ∀ ops : List Op, idsDistinct ((runOps (some kv0) ops).getD [])) := by
  intro h
  have h2 := h [⟨2, "A", none⟩] (by decide)
    [Op.create [] (JSON.obj [("name", JSON.str "B")])]
  exact absurd h2 (by decide)

/-- Claim C4 amended: uniqueness of ids is an invariant of every record whose
ids are pairwise distinct AND each at most the record's length (for instance
the empty record, or ids `1..n` in creation order); from such a record, any
sequence of `list`, `find` and `create` calls preserves both properties, so
`create`'s `length + 1` id never duplicates there. -/
theorem C4_amended_id_uniqueness_invariant (kv : Store)
    (hd : idsDistinct (kv.getD [])) (hb : idsBounded (kv.getD []))
    (ops : List Op) :
    idsDistinct ((runOps kv ops).getD []) ∧
    idsBounded ((runOps kv ops).getD []) := by
  induction ops generalizing kv with
  | nil => exact ⟨hd, hb⟩
  | cons op rest ih =>
    have hstep := stepOp_wf kv op hd hb
    exact ih (stepOp kv op) hstep.1 hstep.2

/-- Witness for the amended C4: two consecutive creates from the singleton
record `[{id:1, name:"A"}]` keep the ids pairwise distinct. -/
theorem C4_amended_id_uniqueness_invariant_witness :
    idsDistinct ((runOps (some [⟨1, "A", none⟩])
        [Op.create [] (JSON.obj [("name", JSON.str "B")]),
         Op.create [] (JSON.obj [("name", JSON.str "C")])]).getD []) ∧
    idsBounded ((runOps (some [⟨1, "A", none⟩])
        [Op.create [] (JSON.obj [("name", JSON.str "B")]),
         Op.create [] (JSON.obj [("name", JSON.str "C")])]).getD []) :=
  C4_amended_id_uniqueness_invariant (some [⟨1, "A", none⟩])
    (by decide) (by decide) _

/-- Claim C3 fails as stated, in both of its conjuncts.  First, `create` drops
the optional `description`: after `create({name:"X", description:"d"})` on
empty storage the call returns `{id:1, name:"X"}` and no entity of the
subsequent `list()` equals `e` extended with the assigned id.  Second, the
`find` round trip fails when a pre-existing entity already carries the
assigned id `length + 1`: on storage `[{id:2, name:"Z"}]`, `create({name:"B"})`
is assigned id 2, and `find({id:2})` returns the old entity `{id:2, name:"Z"}`,
not the newly created one. -/
theorem C3_counterexample :
    ((callCreatePlanet [] (some [])
        (JSON.obj [("name", JSON.str "X"), ("description", JSON.str "d")])).result =
      Except.ok ⟨1, "X", none⟩ ∧
    ¬ ∃ q ∈ ((callListPlanet
        (callCreatePlanet [] (some [])
          (JSON.obj [("name", JSON.str "X"), ("description", JSON.str "d")])).kvAfter
        (JSON.obj [])).result.toOption.getD []),
      q.id = 1 ∧ q.name = "X" ∧ q.description = some "d") ∧
    ((callCreatePlanet [] (some [⟨2, "Z", none⟩])
        (JSON.obj [("name", JSON.str "B")])).result = Except.ok ⟨2, "B", none⟩ ∧
      (callFindPlanet (callCreatePlanet [] (some [⟨2, "Z", none⟩])
          (JSON.obj [("name", JSON.str "B")])).kvAfter
        (JSON.obj [("id", JSON.num 2)])).result = Except.ok ⟨2, "Z", none⟩ ∧
      (⟨2, "Z", none⟩ : Planet) ≠ ⟨2, "B", none⟩) := by
  decide

/-- Claim C3 amended: after `create(e)` succeeds with assigned id
`A = length + 1`, a subsequent `list()` contains the entity
`{id: A, name: e.name}` — the name is preserved but a supplied `description`
is discarded — and, provided no pre-existing entity of the record already
carries id `A`, `find({id: A})` returns that same entity. -/
theorem C3_amended_create_roundtrip (headers : HeaderMap) (kv : Store)
    (raw : JSON) (e : CreateInput) (he : parseCreateInput raw = some e)
    (hfresh : ∀ q ∈ kv.getD [], q.id ≠ ((kv.getD []).length : Int) + 1) :
    ∃ p : Planet,
      (callCreatePlanet headers kv raw).result = Except.ok p ∧
      p.id = ((kv.getD []).length : Int) + 1 ∧
      p.name = e.name ∧ p.description = none ∧
      p ∈ ((callListPlanet (callCreatePlanet headers kv raw).kvAfter
          (JSON.obj [])).result.toOption.getD []) ∧
      (callFindPlanet (callCreatePlanet headers kv raw).kvAfter
          (JSON.obj [("id", JSON.num p.id)])).result = Except.ok p := by
  rw [callCreate_eval headers kv raw e he]
  refine ⟨⟨((kv.getD []).length : Int) + 1, e.name, none⟩,
    rfl, rfl, rfl, rfl, ?_, ?_⟩
  · rw [callList_eval _ (JSON.obj []) ⟨none, 0⟩ (by decide)]
    simp [Except.toOption]
  · have hx : 1 ≤ ((kv.getD []).length : Int) + 1 := by omega
    rw [callFind_eval _ (((kv.getD []).length : Int) + 1) hx]
    unfold findPlanetHandler
    rw [Option.getD_some]
    rw [find?_skip _ (kv.getD []) _ ?side]
    case side =>
      intro q hq
      simp only [beq_eq_false_iff_ne]
      exact hfresh q hq
    simp

/-- Witness for the amended C3: the record `[{id:5, name:"Z"}]` — whose only
id, 5, differs from the assigned id 2 — and the input
`{name:"B", description:"d"}`. -/
theorem C3_amended_create_roundtrip_witness :
    ∃ p : Planet,
      (callCreatePlanet [] (some [⟨5, "Z", none⟩])
          (JSON.obj [("name", JSON.str "B"), ("description", JSON.str "d")])).result =
        Except.ok p ∧
      p.id = (([⟨5, "Z", none⟩] : List Planet).length : Int) + 1 ∧
      p.name = "B" ∧ p.description = none ∧
      p ∈ ((callListPlanet (callCreatePlanet [] (some [⟨5, "Z", none⟩])
          (JSON.obj [("name", JSON.str "B"), ("description", JSON.str "d")])).kvAfter
          (JSON.obj [])).result.toOption.getD []) ∧
      (callFindPlanet (callCreatePlanet [] (some [⟨5, "Z", none⟩])
          (JSON.obj [("name", JSON.str "B"), ("description", JSON.str "d")])).kvAfter
          (JSON.obj [("id", JSON.num p.id)])).result = Except.ok p :=
  C3_amended_create_roundtrip [] (some [⟨5, "Z", none⟩])
    (JSON.obj [("name", JSON.str "B"), ("description", JSON.str "d")])
    ⟨"B", some "d"⟩ (by decide) (by decide)

/-- Claim C5: for each procedure of the registry (`planet.list`,
`planet.find`, `planet.create`) and every request input, a schema-valid input
reaches the handler, while a schema-violating input never reaches the handler
and yields the typed `VALIDATION_ERROR` at the boundary. -/
theorem C5_validation_boundary (kv : Store) (headers : HeaderMap) (raw : JSON) :
    ((parseListInput raw).isSome = true →
      (callListPlanet kv raw).handlerRan = true) ∧
    (parseListInput raw = none →
      (callListPlanet kv raw).handlerRan = false ∧
      (callListPlanet kv raw).result = Except.error ErrCode.VALIDATION_ERROR) ∧
    ((parseFindInput raw).isSome = true →
      (callFindPlanet kv raw).handlerRan = true) ∧
    (parseFindInput raw = none →
      (callFindPlanet kv raw).handlerRan = false ∧
      (callFindPlanet kv raw).result = Except.error ErrCode.VALIDATION_ERROR) ∧
    ((parseCreateInput raw).isSome = true →
      (callCreatePlanet headers kv raw).handlerRan = true) ∧
    (parseCreateInput raw = none →
      (callCreatePlanet headers kv raw).handlerRan = false ∧
      (callCreatePlanet headers kv raw).result =
        Except.error ErrCode.VALIDATION_ERROR) := by
  refine ⟨?_, ?_, ?_, ?_, ?_, ?_⟩ <;> intro h
  · obtain ⟨i, hi⟩ := Option.isSome_iff_exists.mp h
    rw [callList_eval kv raw i hi]
  · simp [callListPlanet, h]
  · obtain ⟨i, hi⟩ := Option.isSome_iff_exists.mp h
    simp [callFindPlanet, hi]
  · simp [callFindPlanet, h]
  · obtain ⟨i, hi⟩ := Option.isSome_iff_exists.mp h
    rw [callCreate_eval headers kv raw i hi]
  · simp [callCreatePlanet, createPlanetMiddleware, h]

/-- Witness for C5: the input `{name:"B"}` is valid for `create` and `list`
(whose object schema strips unknown keys) but violates `find`'s schema, which
requires `id`; the handler flag and the error are as claimed. -/
theorem C5_validation_boundary_witness :
    (callListPlanet none (JSON.obj [("name", JSON.str "B")])).handlerRan = true ∧
    (callCreatePlanet [] none (JSON.obj [("name", JSON.str "B")])).handlerRan = true ∧
    (callFindPlanet none (JSON.obj [("name", JSON.str "B")])).handlerRan = false ∧
    (callFindPlanet none (JSON.obj [("name", JSON.str "B")])).result =
      Except.error ErrCode.VALIDATION_ERROR := by
  have h := C5_validation_boundary none [] (JSON.obj [("name", JSON.str "B")])
  exact ⟨h.1 (by decide), h.2.2.2.2.1 (by decide),
    (h.2.2.2.1 (by decide)).1, (h.2.2.2.1 (by decide)).2⟩

/-- A batched call whose input violates its schema produces exactly the typed
validation error and leaves the storage untouched. -/
lemma execCall_invalid (kv : Store) (c : Op)
    (hc : callSchemaValid c = false) :
    execCall kv c = (Except.error ErrCode.VALIDATION_ERROR, kv) := by
  cases c with
  | list raw =>
    cases h : parseListInput raw with
    | none => simp [execCall, callListPlanet, h, Except.map]
    | some i => rw [callSchemaValid, h] at hc; simp at hc
  | find raw =>
    cases h : parseFindInput raw with
    | none => simp [execCall, callFindPlanet, h, Except.map]
    | some i => rw [callSchemaValid, h] at hc; simp at hc
  | create headers raw =>
    cases h : parseCreateInput raw with
    | none => simp [execCall, callCreatePlanet, createPlanetMiddleware, h, Except.map]
    | some i => rw [callSchemaValid, h] at hc; simp at hc

/-- The batch transport is the sequential composition of its calls. -/
lemma batchRun_append (kv : Store) (pre post : List Op) :
    batchRun kv (pre ++ post) =
      ((batchRun kv pre).1 ++ (batchRun (batchRun kv pre).2 post).1,
        (batchRun (batchRun kv pre).2 post).2) := by
  induction pre generalizing kv with
  | nil => simp [batchRun]
  | cons c rest ih =>
    simp only [List.cons_append, batchRun, List.append_eq]
    rw [ih (execCall kv c).2]

/-- The batch transport returns one response per call. -/
lemma batchRun_length (kv : Store) (calls : List Op) :
    (batchRun kv calls).1.length = calls.length := by
  induction calls generalizing kv with
  | nil => rfl
  | cons c rest ih =>
    simp only [batchRun, List.length_cons]
    rw [ih (execCall kv c).2]

/-- Claim C8: a batch of N calls yields exactly N responses in submission
order (the transport composes the calls one after the other), and a call
whose input violates its schema contributes `VALIDATION_ERROR` in its own
slot only — the sibling responses are exactly those of the batch without it. -/
theorem C8_batch_order_and_isolation (kv : Store) (calls pre post : List Op)
    (c : Op) (hc : callSchemaValid c = false) :
    (batchRun kv calls).1.length = calls.length ∧
    batchRun kv (pre ++ post) =
      ((batchRun kv pre).1 ++ (batchRun (batchRun kv pre).2 post).1,
        (batchRun (batchRun kv pre).2 post).2) ∧
    batchRun kv (pre ++ c :: post) =
      ((batchRun kv pre).1 ++ Except.error ErrCode.VALIDATION_ERROR ::
          (batchRun (batchRun kv pre).2 post).1,
        (batchRun (batchRun kv pre).2 post).2) := by
  refine ⟨batchRun_length kv calls, batchRun_append kv pre post, ?_⟩
  rw [batchRun_append kv pre (c :: post)]
  simp only [batchRun, execCall_invalid (batchRun kv pre).2 c hc]

/-- Witness for C8: a batch of three calls — a valid `list`, a `find` missing
its required `id`, and a valid `create` — yields three responses with the
validation error confined to the middle slot. -/
theorem C8_batch_order_and_isolation_witness :
    (batchRun none [Op.list (JSON.obj []), Op.find (JSON.obj []),
        Op.create [] (JSON.obj [("name", JSON.str "B")])]).1.length = 3 ∧
    batchRun none ([Op.list (JSON.obj [])] ++ Op.find (JSON.obj []) ::
        [Op.create [] (JSON.obj [("name", JSON.str "B")])]) =
      ((batchRun none [Op.list (JSON.obj [])]).1 ++
          Except.error ErrCode.VALIDATION_ERROR ::
          (batchRun (batchRun none [Op.list (JSON.obj [])]).2
            [Op.create [] (JSON.obj [("name", JSON.str "B")])]).1,
        (batchRun (batchRun none [Op.list (JSON.obj [])]).2
          [Op.create [] (JSON.obj [("name", JSON.str "B")])]).2) := by
  have h := C8_batch_order_and_isolation none
    [Op.list (JSON.obj []), Op.find (JSON.obj []),
      Op.create [] (JSON.obj [("name", JSON.str "B")])]
    [Op.list (JSON.obj [])] [Op.create [] (JSON.obj [("name", JSON.str "B")])]
    (Op.find (JSON.obj [])) (by decide)
  exact ⟨h.1, h.2.2⟩

/-- No character list begins with both `/rpc/` and `/api/`. -/
lemma charsPre_rpc_api_excl (l : List Char) :
    charsPre (rpcBase ++ ['/']) l = true →
    charsPre (apiBase ++ ['/']) l = true → False := by
  intro h1 h2
  match l with
  | [] => simp [charsPre, rpcBase] at h1
  | [c] =>
    simp [charsPre, rpcBase, Bool.and_eq_true] at h1
  | c :: d :: t =>
    simp only [rpcBase, apiBase, List.cons_append, List.nil_append, charsPre,
      Bool.and_eq_true, beq_iff_eq] at h1 h2
    have hr : d = 'r' := h1.2.1.symm
    have ha : d = 'a' := h2.2.1.symm
    rw [hr] at ha
    exact absurd ha (by decide)

/-- A path never matches both the `/rpc/*` and the `/api/*` patterns. -/
lemma not_rpc_and_api (p : String) :
    ¬(isRpcPath p = true ∧ isApiPath p = true) := by
  rintro ⟨h1, h2⟩
  simp only [isRpcPath, isApiPath, underBase] at h1 h2
  rw [Bool.or_eq_true] at h1 h2
  rcases h1 with h1 | h1 <;> rcases h2 with h2 | h2
  · have e1 : p.data = rpcBase := by simpa using h1
    have e2 : p.data = apiBase := by simpa using h2
    rw [e1] at e2
    exact absurd e2 (by decide)
  · have e1 : p.data = rpcBase := by simpa using h1
    rw [e1] at h2
    exact absurd h2 (by decide)
  · have e2 : p.data = apiBase := by simpa using h2
    rw [e2] at h1
    exact absurd h1 (by decide)
  · exact charsPre_rpc_api_excl p.data h1 h2

/-- Claim C7: the Hono chain checks the three path prefixes in fixed priority
order — `/rpc`, then `/api`, then the render fallback — exactly one stage
produces the response, and an RPC- or API-prefixed request falls through to
the next stage if and only if its transport reports `matched = false`. -/
theorem C7_dispatch_priority (Resp : Type)
    (rpcH apiH : String → Option Resp) (renderH : String → Resp)
    (path : String) :
    (∀ r, isRpcPath path = true → rpcH path = some r →
      dispatch rpcH apiH renderH path = (Stage.rpc, r)) ∧
    (isRpcPath path = true → rpcH path = none →
      dispatch rpcH apiH renderH path = (Stage.render, renderH path)) ∧
    (∀ r, isApiPath path = true → apiH path = some r →
      dispatch rpcH apiH renderH path = (Stage.api, r)) ∧
    (isApiPath path = true → apiH path = none →
      dispatch rpcH apiH renderH path = (Stage.render, renderH path)) ∧
    (isRpcPath path = false → isApiPath path = false →
      dispatch rpcH apiH renderH path = (Stage.render, renderH path)) ∧
    ((dispatch rpcH apiH renderH path).1 = Stage.rpc ↔
      isRpcPath path = true ∧
        rpcH path = some (dispatch rpcH apiH renderH path).2) ∧
    ((dispatch rpcH apiH renderH path).1 = Stage.api ↔
      isApiPath path = true ∧
        apiH path = some (dispatch rpcH apiH renderH path).2) := by
  by_cases hr : isRpcPath path = true
  · have ha : isApiPath path = false := by
      rcases h : isApiPath path with _ | _
      · rfl
      · exact absurd ⟨hr, h⟩ (not_rpc_and_api path)
    cases hcall : rpcH path with
    | some r =>
      simp [dispatch, hr, hcall, ha, dispatchFromApi]
    | none =>
      simp [dispatch, hr, hcall, ha, dispatchFromApi]
  · have hr' : isRpcPath path = false := by
      rcases h : isRpcPath path with _ | _
      · rfl
      · exact absurd h hr
    by_cases ha : isApiPath path = true
    · cases hcall : apiH path with
      | some r => simp [dispatch, hr', ha, hcall, dispatchFromApi]
      | none => simp [dispatch, hr', ha, hcall, dispatchFromApi]
    · have ha' : isApiPath path = false := by
        rcases h : isApiPath path with _ | _
        · rfl
        · exact absurd h ha
      simp [dispatch, hr', ha', dispatchFromApi]

/-- Witness for C7 on the path `/rpc/planet/list`: a matching RPC transport
claims the request; a non-matching one lets it fall through to the render
stage, never to the API stage. -/
theorem C7_dispatch_priority_witness :
    dispatch (fun _ => some true) (fun _ => none) (fun _ => false)
      "/rpc/planet/list" = (Stage.rpc, true) ∧
    dispatch (fun _ => (none : Option Bool)) (fun _ => none) (fun _ => false)
      "/rpc/planet/list" = (Stage.render, false) := by
  constructor
  · exact (C7_dispatch_priority Bool (fun _ => some true) (fun _ => none)
      (fun _ => false) "/rpc/planet/list").1 true (by decide) rfl
  · exact (C7_dispatch_priority Bool (fun _ => none) (fun _ => none)
      (fun _ => false) "/rpc/planet/list").2.1 (by decide) rfl
